import Mathlib

/-!
Shallow embedding of `src/Indeks.ai.py` (the Indeks AI chatbot core).

Pure Python string/number logic is translated into executable Lean
definitions: Python `str` becomes `String` (a list of characters, matching
the per-character slicing of Python), Python floats become exact rationals `ℚ`,
Python `int` becomes `ℤ`/`ℕ`.  The two external collaborators — the
Yahoo-Finance fetch (`yfinance`) and the language-model invocation
(`llm.invoke`) — are modelled by explicit input parameters: the provider
history is passed in as a list of rows, and the outcome of one model call is
an `Option String` (`none` models the call raising an exception).  Functions
that in Python may either raise into a `try/except` or return data are split
into a pure data-shaping function plus an explicit result type carrying the
error case.  Where a composed handler invokes the model, the embedding
returns the produced value together with the number of model invocations
attempted on that path, so that call-count properties are statable.
-/

set_option maxRecDepth 8000

/-! ### String helpers (Python `in` and `.lower()`) -/

/-- Python list/char-level check that `needle` is an initial segment of `hay`. -/
def firstMatches : List Char → List Char → Bool
  | [], _ => true
  | _ :: _, [] => false
  | a :: as, b :: bs => a == b && firstMatches as bs

/-- Python `needle in hay` on character lists: unanchored containment. -/
def occursIn (needle : List Char) : List Char → Bool
  | [] => firstMatches needle []
  | b :: bs => firstMatches needle (b :: bs) || occursIn needle bs

/-- Python `needle in hay` for strings. -/
def strContains (hay needle : String) : Bool := occursIn needle.data hay.data

/-- Python `s.lower()` (all keyword lists are ASCII). -/
def lowerStr (s : String) : String := String.mk (s.data.map Char.toLower)

/-- Python `s.upper()` (used for `data["status"].upper()`). -/
def upperStr (s : String) : String := String.mk (s.data.map Char.toUpper)

/-! ### Intent classification (`is_ihsg_data_request`, `is_ihsg_weekly_request`) -/

/-- `exclusion_words` of `is_ihsg_data_request` (src lines 152-155). -/
def exclusion_words : List String :=
  ["apa itu", "jelaskan", "definisi", "maksudnya", "pengertian",
   "bagaimana cara", "mengapa", "kenapa", "perbedaan"]

/-- `data_keywords` of `is_ihsg_data_request` (src lines 160-166). -/
def data_keywords : List String :=
  ["ihsg", "indeks harga saham gabungan", "jkse",
   "bursa hari ini", "posisi ihsg", "berapa ihsg",
   "harga ihsg", "idx", "indeks komposit", "bursa saham indonesia",
   "saham hari ini", "pasar modal hari ini", "update ihsg",
   "pergerakan ihsg", "closing ihsg", "pembukaan ihsg", "berita ihsg"]

/-- `weekly_keywords` of `is_ihsg_weekly_request` (src lines 172-176). -/
def weekly_keywords : List String :=
  ["seminggu", "minggu ini", "7 hari", "mingguan", "weekly",
   "seminggu terakhir", "data seminggu", "tren minggu",
   "pergerakan seminggu", "grafik minggu", "chart minggu"]

/-- `is_ihsg_data_request(prompt)` (src lines 147-167): exclusion words force
`False`, otherwise any data keyword matches. -/
def is_ihsg_data_request (prompt : String) : Bool :=
  let prompt_lower := lowerStr prompt
  if exclusion_words.any (fun word => strContains prompt_lower word) then false
  else data_keywords.any (fun keyword => strContains prompt_lower keyword)

/-- `is_ihsg_weekly_request(prompt)` (src lines 169-177): any weekly keyword
matches; no exclusion check. -/
def is_ihsg_weekly_request (prompt : String) : Bool :=
  let prompt_lower := lowerStr prompt
  weekly_keywords.any (fun keyword => strContains prompt_lower keyword)

/-- The three response modes of the chat handler. -/
inductive IntentDecision
  | educational
  | latestQuoteRequest
  | weeklySeriesRequest
deriving DecidableEq

/-- The routing of the chat handler (src lines 515-537): weekly test first,
then the latest-data test, otherwise the pure-LLM educational mode. -/
def classify (prompt : String) : IntentDecision :=
  if is_ihsg_weekly_request prompt then .weeklySeriesRequest
  else if is_ihsg_data_request prompt then .latestQuoteRequest
  else .educational





/-! ### Number formatting (Python f-string `:.2f`, `:+.2f`, `:,.2f`, `:+,.2f`, `:,.0f`)

The embedding works over exact rationals, so the Python float format
specifiers are modelled by exact round-half-to-even on `ℚ` to two decimal
places, with an optional forced sign and optional thousands grouping. -/

/-- Floor of a rational (executable). -/
def qfloor (q : ℚ) : ℤ := Int.fdiv q.num (q.den : ℤ)

/-- Round half to even, the rounding used by Python float formatting. -/
def roundHalfEven (q : ℚ) : ℤ :=
  let f : ℤ := qfloor q
  let r : ℚ := q - (f : ℚ)
  if r < 1 / 2 then f
  else if 1 / 2 < r then f + 1
  else if f % 2 = 0 then f else f + 1

/-- Two-digit zero-padded decimal fraction. -/
def natPad2 (n : ℕ) : String := if n < 10 then "0" ++ toString n else toString n

/-- Insert a comma after every 3 characters of a reversed digit list. -/
def groupRevAux : ℕ → List Char → List Char
  | 0, l => l
  | _ + 1, [] => []
  | fuel + 1, l => if l.length ≤ 3 then l else l.take 3 ++ ',' :: groupRevAux fuel (l.drop 3)

/-- Thousands grouping of a digit string (Python `,` format flag). -/
def commaGroup (s : String) : String :=
  String.mk ((groupRevAux s.data.length s.data.reverse).reverse)

/-- Render `n` hundredths as a two-decimal string, with optional forced `+`
sign and optional thousands grouping. -/
def decStr2 (n : ℤ) (plus : Bool) (comma : Bool) : String :=
  let sign := if n < 0 then "-" else if plus then "+" else ""
  let a := n.natAbs
  let intStr := toString (a / 100)
  sign ++ (if comma then commaGroup intStr else intStr) ++ "." ++ natPad2 (a % 100)

/-- Python `f"{q:.2f}"`. -/
def fmt2 (q : ℚ) : String := decStr2 (roundHalfEven (q * 100)) false false

/-- Python `f"{q:+.2f}"`. -/
def fmtPlus2 (q : ℚ) : String := decStr2 (roundHalfEven (q * 100)) true false

/-- Python `f"{q:,.2f}"`. -/
def fmtComma2 (q : ℚ) : String := decStr2 (roundHalfEven (q * 100)) false true

/-- Python `f"{q:+,.2f}"`. -/
def fmtPlusComma2 (q : ℚ) : String := decStr2 (roundHalfEven (q * 100)) true true

/-- Python `f"{v:,.0f}"` on an integral value (the volume column). -/
def fmtComma0 (v : ℤ) : String :=
  (if v < 0 then "-" else "") ++ commaGroup (toString v.natAbs)





/-! ### Weekly series construction (`fetch_ihsg_weekly_data`, src lines 102-144) -/

/-- One row of `ticker.history(period="1mo")` as consumed by the weekly
fetch: the already-formatted date/day strings and the OHLCV columns. -/
structure RawBar where
  date : String
  day : String
  «open» : ℚ
  high : ℚ
  low : ℚ
  close : ℚ
  volume : ℤ
deriving DecidableEq

/-- One element of the `weekly_data` list built in `fetch_ihsg_weekly_data`
(src lines 130-140), dict keys in source order. -/
structure WeeklyBar where
  date : String
  day : String
  close : ℚ
  «open» : ℚ
  high : ℚ
  low : ℚ
  volume : ℤ
  change : ℚ
  change_pct : ℚ
deriving DecidableEq

/-- One loop iteration of `fetch_ihsg_weekly_data`: `prev` is
`weekly_data[-1]["close"]` when the accumulator is non-empty (src lines
121-128). -/
def mkBar (prev : Option ℚ) (r : RawBar) : WeeklyBar :=
  match prev with
  | none =>
      { date := r.date, day := r.day, close := r.close, «open» := r.«open»,
        high := r.high, low := r.low, volume := r.volume,
        change := 0, change_pct := 0 }
  | some prev_close =>
      let change := r.close - prev_close
      { date := r.date, day := r.day, close := r.close, «open» := r.«open»,
        high := r.high, low := r.low, volume := r.volume,
        change := change, change_pct := change / prev_close * 100 }

/-- The whole accumulation loop of `fetch_ihsg_weekly_data` (src lines
117-140). -/
def mkWeeklyBars (prev : Option ℚ) : List RawBar → List WeeklyBar
  | [] => []
  | r :: rs => mkBar prev r :: mkWeeklyBars (some r.close) rs

/-- Pandas `hist.tail(7)`: the last (at most) 7 rows. -/
def tail7 (hist : List RawBar) : List RawBar := hist.drop (hist.length - 7)

/-- `fetch_ihsg_weekly_data` on a successfully retrieved history (src lines
103-142): `None` exactly on an empty history, otherwise the bar list built
from the last 7 rows.  The `except` branch (provider exception, src line
143) is modelled separately by `WeeklyFetchResult.fetchError`. -/
def fetch_ihsg_weekly_data (hist : List RawBar) : Option (List WeeklyBar) :=
  if hist = [] then none
  else some (mkWeeklyBars none (tail7 hist))

/-! ### Weekly statistics and formatting (`get_ihsg_weekly_data_and_format`, src lines 180-262) -/

/-- Python `max` over a non-empty list (0 on the empty list, which Python
would reject with a `ValueError`; the empty case is unreachable from the
fetch, which only produces non-empty series). -/
def listMax : List ℚ → ℚ
  | [] => 0
  | [x] => x
  | x :: y :: ys => max x (listMax (y :: ys))

/-- Python `min` over a non-empty list (0 on the empty list, unreachable). -/
def listMin : List ℚ → ℚ
  | [] => 0
  | [x] => x
  | x :: y :: ys => min x (listMin (y :: ys))

/-- Placeholder bar used only to totalise `weekly_data[-1]` / `weekly_data[0]`
on the empty list, where Python would raise `IndexError` (unreachable from
the fetch). -/
def dfltBar : WeeklyBar :=
  { date := "", day := "", close := 0, «open» := 0, high := 0, low := 0,
    volume := 0, change := 0, change_pct := 0 }

/-- The statistics block of `get_ihsg_weekly_data_and_format` (src lines
199-205): period change, period change percent, high, low, average. -/
structure WeeklyStats where
  week_change : ℚ
  week_change_pct : ℚ
  highest : ℚ
  lowest : ℚ
  avg_close : ℚ
deriving DecidableEq

/-- The statistics computed at src lines 199-205: `latest = weekly_data[-1]`,
`oldest = weekly_data[0]`, change of last close against first close, the
percent change against the first close, max of highs, min of lows, mean of
closes. -/
def weeklyStats (wd : List WeeklyBar) : WeeklyStats :=
  let latest := wd.getLastD dfltBar
  let oldest := wd.headD dfltBar
  let week_change := latest.close - oldest.close
  { week_change := week_change,
    week_change_pct := week_change / oldest.close * 100,
    highest := listMax (wd.map (·.high)),
    lowest := listMin (wd.map (·.low)),
    avg_close := (wd.map (·.close)).sum / (wd.length : ℚ) }

/-- The status line of the stats block (src line 214). -/
def trendStatus (week_change : ℚ) : String :=
  if week_change > 0 then "📈 MENGUAT"
  else if week_change < 0 then "📉 MELEMAH"
  else "➡️ STAGNAN"

/-- The part of `stats_text` (src lines 207-223) before the
`{week_change_pct:+.2f}` interpolation. -/
def stats_before (wd : List WeeklyBar) : String :=
  let latest := wd.getLastD dfltBar
  let oldest := wd.headD dfltBar
  let s := weeklyStats wd
  "\n📊 **Ringkasan Data IHSG 7 Hari Trading Terakhir**\n\n**Performa Mingguan:**\n- Penutupan Awal: "
    ++ fmtComma2 oldest.close ++ " (" ++ oldest.date
    ++ ")\n- Penutupan Akhir: " ++ fmtComma2 latest.close ++ " (" ++ latest.date
    ++ ")\n- Perubahan Minggu: " ++ fmtPlusComma2 s.week_change ++ " poin ("

/-- The part of `stats_text` (src lines 207-223) after the
`{week_change_pct:+.2f}` interpolation. -/
def stats_after (wd : List WeeklyBar) : String :=
  let s := weeklyStats wd
  "%)\n- Status: " ++ trendStatus s.week_change
    ++ "\n\n**Statistik:**\n- Tertinggi: " ++ fmtComma2 s.highest
    ++ "\n- Terendah: " ++ fmtComma2 s.lowest
    ++ "\n- Rata-rata: " ++ fmtComma2 s.avg_close
    ++ "\n- Range: " ++ fmtComma2 (s.highest - s.lowest) ++ " poin\n\n---\n"

/-- The full `stats_text` f-string (src lines 207-223). -/
def stats_text (wd : List WeeklyBar) : String :=
  stats_before wd ++ fmtPlus2 (weeklyStats wd).week_change_pct ++ stats_after wd

/-- One row of `display_df` (src lines 190-196): columns Tanggal, Hari,
Penutupan, Perubahan, Volume. -/
structure DisplayRow where
  tanggal : String
  hari : String
  penutupan : String
  perubahan : String
  volume : String
deriving DecidableEq

/-- The per-row formatting of `display_df` (src lines 191-196): the change
column shows `"-"` for a zero change. -/
def displayRow (b : WeeklyBar) : DisplayRow :=
  { tanggal := b.date,
    hari := b.day,
    penutupan := fmtComma2 b.close,
    perubahan :=
      if b.change ≠ 0 then fmtPlusComma2 b.change ++ " (" ++ fmtPlus2 b.change_pct ++ "%)"
      else "-",
    volume := fmtComma0 b.volume }

/-- Outcome of the weekly data fetch as tested at src line 185: `noData`
models `None`, `fetchError` models the `{"error": ...}` dict produced by the
`except` branch, `ok` is a fetched series. -/
inductive WeeklyFetchResult
  | noData
  | fetchError (msg : String)
  | ok (wd : List WeeklyBar)
deriving DecidableEq

/-- Lift the pure fetch result into the richer result type seen by the
composer (the `fetchError` case arises only from a provider exception). -/
def toWeeklyFetchResult : Option (List WeeklyBar) → WeeklyFetchResult
  | none => .noData
  | some wd => .ok wd

/-- Return value of `get_ihsg_weekly_data_and_format`: a bare error string
(src line 187) or the `(result, display_df)` tuple (src line 262). -/
inductive WeeklyFormatResult
  | errorText (s : String)
  | ok (text : String) (table : List DisplayRow)
deriving DecidableEq

/-- Discriminator for the error case of `WeeklyFormatResult`. -/
def WeeklyFormatResult.isErrorText : WeeklyFormatResult → Bool
  | .errorText _ => true
  | .ok _ _ => false

/-- The fixed error message prefix of src line 187. -/
def weeklyErrText (msg : String) : String :=
  "⚠️ Maaf, tidak dapat mengambil data mingguan IHSG dari Yahoo Finance. Error: " ++ msg

/-- The fallback sentence substituted when the weekly narration call raises
(src line 253). -/
def weeklyAiFallback : String := "Analisis AI tidak tersedia saat ini."

/-- `get_ihsg_weekly_data_and_format` (src lines 180-262).  `llm` is the
outcome of the single narration invocation (`none` = the call raised); the
second component counts the model invocations attempted on the path taken.
On fetch failure the function returns the fixed error string directly and
never reaches the `llm.invoke` at src line 251. -/
def get_ihsg_weekly_data_and_format (fetched : WeeklyFetchResult) (llm : Option String) :
    WeeklyFormatResult × ℕ :=
  match fetched with
  | .noData => (.errorText (weeklyErrText "Data tidak tersedia"), 0)
  | .fetchError msg => (.errorText (weeklyErrText msg), 0)
  | .ok wd =>
      let ai_analysis := match llm with
        | some t => t
        | none => weeklyAiFallback
      (.ok (ai_analysis ++ "\n\n" ++ stats_text wd ++ "\n\n**📋 Tabel Data Lengkap:**\n")
         (wd.map displayRow), 1)

/-! ### Latest-quote construction (`fetch_ihsg_data`, src lines 55-100) -/

/-- One row of `ticker.history(period="5d")` as consumed by the latest
fetch: the close and the row date (pre-formatted strings plus the date as a
day ordinal, so that `days_ago` is an integer subtraction). -/
structure HistRow where
  close : ℚ
  dateStr : String
  dayName : String
  dateOrd : ℤ
deriving DecidableEq

/-- Placeholder row used only to totalise `iloc[-1]` / `iloc[-2]` on lists
that the length guard has already excluded. -/
def dfltHistRow : HistRow := { close := 0, dateStr := "", dayName := "", dateOrd := 0 }

/-- The dict returned by `fetch_ihsg_data` on success (src lines 86-98). -/
structure IHSGData where
  close : ℚ
  prev_close : ℚ
  change_points : ℚ
  change_percent : ℚ
  date : String
  day_name : String
  status : String
  is_today : Bool
  days_ago : ℤ
  market_status : String
deriving DecidableEq

/-- `fetch_ihsg_data` on a successfully retrieved history (src lines 56-98):
`None` when the history is empty or shorter than 2 rows, otherwise the quote
dict with `close = iloc[-1]`, `prev_close = iloc[-2]`, the derived change
fields, and the staleness fields computed against `nowOrd` (the current
date as a day ordinal).  The division `change_points / prev_close` is not
guarded against a zero `prev_close`.  The `except` branch (src line 99) is
modelled separately by `LatestFetchResult.fetchError`. -/
def fetch_ihsg_data (hist : List HistRow) (nowOrd : ℤ) : Option IHSGData :=
  if hist.length < 2 then none
  else
    let lastRow := hist.getLastD dfltHistRow
    let latest_close := lastRow.close
    let prev_close := (hist.dropLast.getLastD dfltHistRow).close
    let change_points := latest_close - prev_close
    let change_percent := change_points / prev_close * 100
    let is_today := lastRow.dateOrd = nowOrd
    let days_ago := nowOrd - lastRow.dateOrd
    some
      { close := latest_close,
        prev_close := prev_close,
        change_points := change_points,
        change_percent := change_percent,
        date := lastRow.dateStr,
        day_name := lastRow.dayName,
        status :=
          if change_points > 0 then "naik"
          else if change_points < 0 then "turun" else "stagnan",
        is_today := is_today,
        days_ago := days_ago,
        market_status := if is_today then "hari ini" else toString days_ago ++ " hari lalu" }

/-! ### Latest-mode hybrid composer (`get_ihsg_data_and_format`, src lines 265-338) -/

/-- Outcome of the latest data fetch as tested at src line 269: `noData`
models `None`, `fetchError` models the `{"error": ...}` dict, `ok` a quote. -/
inductive LatestFetchResult
  | noData
  | fetchError (msg : String)
  | ok (d : IHSGData)
deriving DecidableEq

/-- Whether the fetch outcome takes the error branch of src line 269. -/
def LatestFetchResult.isFailure : LatestFetchResult → Bool
  | .ok _ => false
  | _ => true

/-- Lift the pure fetch result into the richer result type seen by the
composer. -/
def toLatestFetchResult : Option IHSGData → LatestFetchResult
  | none => .noData
  | some d => .ok d

/-- The fixed apology returned when the fetch failed and the apology
invocation also raised (src line 288). -/
def latestFixedApology : String :=
  "⚠️ Maaf, sistem sedang mengalami kendala dalam mengakses data pasar. Silakan coba beberapa saat lagi atau tanyakan hal lain terkait edukasi investasi."

/-- The deterministic raw-data footer `data_detail` appended to the model
narration (src lines 325-334). -/
def data_detail (d : IHSGData) : String :=
  "\n\n---\n**📊 Data Mentah dari Yahoo Finance (^JKSE):**\n- 📅 Tanggal: "
    ++ d.day_name ++ ", " ++ d.date
    ++ "\n- 💰 Penutupan: **" ++ fmt2 d.close
    ++ "** poin\n- 📈 Perubahan: **" ++ fmtPlus2 d.change_points
    ++ "** poin (**" ++ fmtPlus2 d.change_percent
    ++ "%**)\n- 🔄 Status: **" ++ upperStr d.status
    ++ "**\n- ⏰ Data diambil: " ++ d.market_status ++ "\n"

/-- The data-preserving fallback when the narration call raised (src line
338). -/
def latestDataFallback (d : IHSGData) : String :=
  "⚠️ Data IHSG: " ++ fmt2 d.close ++ " (" ++ fmtPlus2 d.change_percent
    ++ "%). Sistem AI sedang sibuk, data mentah ditampilkan."

/-- `get_ihsg_data_and_format` (src lines 265-338).  `llm` is the outcome of
the single model invocation attempted on the path taken (`none` = raised);
the second component counts the invocations.  A fetch failure still attempts
one apology invocation (src lines 272-288); a success attempts one narration
invocation and appends the deterministic footer, falling back to
`latestDataFallback` when the call raised (src lines 322-338). -/
def get_ihsg_data_and_format (fetched : LatestFetchResult) (llm : Option String) : String × ℕ :=
  match fetched with
  | .noData =>
      match llm with
      | some t => (t, 1)
      | none => (latestFixedApology, 1)
  | .fetchError _ =>
      match llm with
      | some t => (t, 1)
      | none => (latestFixedApology, 1)
  | .ok d =>
      match llm with
      | some t => (t ++ data_detail d, 1)
      | none => (latestDataFallback d, 1)

/-! ### Educational mode (`get_llm_response`, src lines 341-364) -/

/-- Role of a stored conversation turn (`st.session_state.messages`). -/
inductive Role
  | user
  | assistant
deriving DecidableEq

/-- One stored conversation turn. -/
structure ChatMsg where
  role : Role
  content : String
deriving DecidableEq

/-- A message handed to `llm.invoke`: `SystemMessage`, `HumanMessage` or
`AIMessage`. -/
inductive LMsg
  | system (content : String)
  | human (content : String)
  | ai (content : String)
deriving DecidableEq

/-- The persona system instruction (src lines 29-38). -/
def SYSTEM_INSTRUCTION : String :=
  "Anda adalah Indeks AI, seorang analis Pasar Modal Indonesia yang profesional, objektif, dan edukatif. \n\nTugas Anda:\n- Berikan jawaban yang ringkas, berdasarkan fakta, dan fokus pada IHSG, emiten Indonesia, dan ekonomi makro Indonesia\n- Jelaskan istilah teknis dengan bahasa yang mudah dipahami untuk investor pemula hingga menengah\n- Selalu objektif dan tidak memberikan rekomendasi beli/jual saham secara spesifik\n- Gunakan Bahasa Indonesia yang profesional namun ramah\n- Jika tidak yakin, akui keterbatasan dan sarankan konsultasi dengan profesional berlisensi\n\nKonteks: Anda membantu investor Indonesia memahami pasar modal dalam negeri dengan lebih baik."

/-- The assistant-turn truncation of src line 352: content over 500
characters is cut to its first 500 characters plus an ellipsis marker. -/
def truncContent (content : String) : String :=
  if content.length > 500 then content.take 500 ++ "..." else content

/-- One iteration of the replay loop (src lines 348-353): user turns are
replayed unchanged, assistant turns truncated. -/
def historyMsg (m : ChatMsg) : LMsg :=
  match m.role with
  | .user => .human m.content
  | .assistant => .ai (truncContent m.content)

/-- `chat_history[-8:] if len(chat_history) > 8 else chat_history`
(src line 346). -/
def recentHistory (chat_history : List ChatMsg) : List ChatMsg :=
  if chat_history.length > 8 then chat_history.drop (chat_history.length - 8)
  else chat_history

/-- The `full_prompt` f-string (src lines 355-357). -/
def full_prompt (prompt : String) : String :=
  prompt ++ "\n\nPENTING: Berikan jawaban yang LENGKAP dan TUNTAS dalam satu respons. Jangan berhenti di tengah kalimat."

/-- The message sequence `get_llm_response` hands to `llm.invoke` (src lines
344-359): system instruction, the windowed and truncated history, then the
new utterance. -/
def get_llm_response_messages (prompt : String) (chat_history : List ChatMsg) : List LMsg :=
  LMsg.system SYSTEM_INSTRUCTION
    :: ((recentHistory chat_history).map historyMsg ++ [LMsg.human (full_prompt prompt)])

/-- `get_llm_response` (src lines 341-364): the reply of the model, or the fixed
error sentence when the invocation raised. -/
def get_llm_response (prompt : String) (chat_history : List ChatMsg) (llm : Option String) :
    String :=
  match llm with
  | some t => t
  | none => "⚠️ Maaf, terjadi kesalahan dalam memproses permintaan Anda. Silakan coba dengan pertanyaan yang lebih ringkas atau coba lagi."

/-- Whether the weekly fetch outcome takes the error branch of src line 185. -/
def WeeklyFetchResult.isFailure : WeeklyFetchResult → Bool
  | .ok _ => false
  | _ => true

/-- Specification-side reading of the weekly statistics (spec section 4.2):
period change is last close minus first close, the percent change divides by
the first close, `highest`/`lowest` are the maximum of the highs and the
minimum of the lows, the average is the arithmetic mean of the closes, and
the status line follows the sign of the period change. -/
def StatsSpec (wd : List WeeklyBar) : Prop :=
  (weeklyStats wd).week_change = (wd.getLastD dfltBar).close - (wd.headD dfltBar).close ∧
  (weeklyStats wd).week_change_pct
      = (weeklyStats wd).week_change / (wd.headD dfltBar).close * 100 ∧
  (weeklyStats wd).highest ∈ wd.map WeeklyBar.high ∧
  (∀ q ∈ wd.map WeeklyBar.high, q ≤ (weeklyStats wd).highest) ∧
  (weeklyStats wd).lowest ∈ wd.map WeeklyBar.low ∧
  (∀ q ∈ wd.map WeeklyBar.low, (weeklyStats wd).lowest ≤ q) ∧
  (weeklyStats wd).avg_close
      = (wd.map WeeklyBar.close).sum / ((wd.map WeeklyBar.close).length : ℚ) ∧
  (0 < (weeklyStats wd).week_change →
      trendStatus (weeklyStats wd).week_change = "📈 MENGUAT") ∧
  ((weeklyStats wd).week_change < 0 →
      trendStatus (weeklyStats wd).week_change = "📉 MELEMAH") ∧
  ((weeklyStats wd).week_change = 0 →
      trendStatus (weeklyStats wd).week_change = "➡️ STAGNAN")

/-! ### Concrete demonstration data -/

/-- Build a provider row around a close price (open/high/low chosen near the
close; the concrete values are irrelevant to the properties). -/
def mkDemoRaw (date day : String) (c : ℚ) (v : ℤ) : RawBar :=
  { date := date, day := day, «open» := c - 1, high := c + 2, low := c - 2,
    close := c, volume := v }

/-- The 7-bar series of the concrete example in the spec: closes
[100, 105, 103, 110, 108, 112, 115]. -/
def demoRaw7 : List RawBar :=
  [mkDemoRaw "01 Jan 2026" "Thursday" 100 1000000,
   mkDemoRaw "02 Jan 2026" "Friday" 105 1100000,
   mkDemoRaw "05 Jan 2026" "Monday" 103 1200000,
   mkDemoRaw "06 Jan 2026" "Tuesday" 110 1300000,
   mkDemoRaw "07 Jan 2026" "Wednesday" 108 1400000,
   mkDemoRaw "08 Jan 2026" "Thursday" 112 1500000,
   mkDemoRaw "09 Jan 2026" "Friday" 115 1600000]

/-- The weekly series the fetch builds from `demoRaw7`. -/
def demoSeries : List WeeklyBar := mkWeeklyBars none (tail7 demoRaw7)

/-- A one-bar weekly series (fewer than 2 bars). -/
def oneBarSeries : List WeeklyBar :=
  [{ date := "09 Jan 2026", day := "Friday", close := 115, «open» := 114,
     high := 117, low := 113, volume := 1600000, change := 0, change_pct := 0 }]

/-- An assistant reply of 600 characters. -/
def longAnswer : String := String.mk (List.replicate 600 'a')

/-- The long assistant turn used by the truncation property. -/
def demoLongMsg : ChatMsg := { role := .assistant, content := longAnswer }

/-- A conversation history of 10 turns, the 4th being 600 characters long. -/
def demoHistory : List ChatMsg :=
  [{ role := .user, content := "halo" },
   { role := .assistant, content := "selamat datang" },
   { role := .user, content := "apa itu saham" },
   demoLongMsg,
   { role := .user, content := "apa itu obligasi" },
   { role := .assistant, content := "surat utang" },
   { role := .user, content := "apa itu reksadana" },
   { role := .assistant, content := "wadah investasi" },
   { role := .user, content := "apa itu dividen" },
   { role := .assistant, content := "bagi hasil" }]

/-- A latest-quote history of one row (shorter than 2 bars). -/
def demoHist1 : List HistRow :=
  [{ close := 7000, dateStr := "01 October 2026", dayName := "Thursday", dateOrd := 100 }]

/-- A latest-quote history of two rows. -/
def demoHist2 : List HistRow :=
  [{ close := 7000, dateStr := "01 October 2026", dayName := "Thursday", dateOrd := 100 },
   { close := 7100, dateStr := "02 October 2026", dayName := "Friday", dateOrd := 101 }]

/-- The quote the latest fetch builds from `demoHist2` when "now" is the
ordinal of its last row. -/
def demoQuote : IHSGData :=
  { close := 7100, prev_close := 7000, change_points := 100,
    change_percent := 10 / 7, date := "02 October 2026", day_name := "Friday",
    status := "naik", is_today := true, days_ago := 0, market_status := "hari ini" }

/-- A latest-quote history whose previous close is zero. -/
def zeroPrevHist : List HistRow :=
  [{ close := 0, dateStr := "01 October 2026", dayName := "Thursday", dateOrd := 100 },
   { close := 5, dateStr := "02 October 2026", dayName := "Friday", dateOrd := 101 }]

/-! ### Helper lemmas -/

/-- `listMax` of a non-empty list is one of its elements. -/
theorem listMax_mem : ∀ (l : List ℚ), l ≠ [] → listMax l ∈ l := by
  intro l
  induction l with
  | nil => intro h; exact absurd rfl h
  | cons x xs ih =>
    intro _
    cases xs with
    | nil => simp [listMax]
    | cons y ys =>
      have hmem := ih (by simp)
      simp only [listMax]
      rcases le_total x (listMax (y :: ys)) with hle | hle
      · rw [max_eq_right hle]
        exact List.mem_cons_of_mem _ hmem
      · rw [max_eq_left hle]
        exact List.mem_cons_self _ _

/-- `listMax` bounds every element from above. -/
theorem le_listMax : ∀ (l : List ℚ), ∀ q ∈ l, q ≤ listMax l := by
  intro l
  induction l with
  | nil => intro q hq; exact absurd hq (List.not_mem_nil q)
  | cons x xs ih =>
    intro q hq
    cases xs with
    | nil =>
      simp at hq
      simp [listMax, hq]
    | cons y ys =>
      simp only [listMax]
      rcases List.mem_cons.mp hq with h | h
      · exact h ▸ le_max_left _ _
      · exact (ih q h).trans (le_max_right _ _)

/-- `listMin` of a non-empty list is one of its elements. -/
theorem listMin_mem : ∀ (l : List ℚ), l ≠ [] → listMin l ∈ l := by
  intro l
  induction l with
  | nil => intro h; exact absurd rfl h
  | cons x xs ih =>
    intro _
    cases xs with
    | nil => simp [listMin]
    | cons y ys =>
      have hmem := ih (by simp)
      simp only [listMin]
      rcases le_total x (listMin (y :: ys)) with hle | hle
      · rw [min_eq_left hle]
        exact List.mem_cons_self _ _
      · rw [min_eq_right hle]
        exact List.mem_cons_of_mem _ hmem

/-- `listMin` bounds every element from below. -/
theorem listMin_le : ∀ (l : List ℚ), ∀ q ∈ l, listMin l ≤ q := by
  intro l
  induction l with
  | nil => intro q hq; exact absurd hq (List.not_mem_nil q)
  | cons x xs ih =>
    intro q hq
    cases xs with
    | nil =>
      simp at hq
      simp [listMin, hq]
    | cons y ys =>
      simp only [listMin]
      rcases List.mem_cons.mp hq with h | h
      · exact h ▸ min_le_left _ _
      · exact (min_le_right _ _).trans (ih q h)

/-- Both branches of `mkBar` carry the raw close unchanged. -/
theorem mkBar_close (prev : Option ℚ) (r : RawBar) : (mkBar prev r).close = r.close := by
  cases prev <;> rfl

/-- The constructed bars carry the raw closes in order. -/
theorem mkWeeklyBars_map_close (prev : Option ℚ) (rs : List RawBar) :
    (mkWeeklyBars prev rs).map WeeklyBar.close = rs.map RawBar.close := by
  induction rs generalizing prev with
  | nil => rfl
  | cons r rs ih => simp [mkWeeklyBars, mkBar_close, ih]

/-- The change field written by the `some` branch of `mkBar`. -/
theorem mkBar_some_change (p : ℚ) (r : RawBar) : (mkBar (some p) r).change = r.close - p := rfl

/-- The percent-change field written by the `some` branch of `mkBar`. -/
theorem mkBar_some_change_pct (p : ℚ) (r : RawBar) :
    (mkBar (some p) r).change_pct = (r.close - p) / p * 100 := rfl

/-- Each bar after the first relates its change fields to the previous
close of the previous bar. -/
theorem mkWeeklyBars_chain :
    ∀ (rs : List RawBar) (prev : Option ℚ) (i : ℕ) (a b : WeeklyBar),
      (mkWeeklyBars prev rs)[i]? = some a →
      (mkWeeklyBars prev rs)[i + 1]? = some b →
      b.change = b.close - a.close ∧
      b.change_pct = (b.close - a.close) / a.close * 100 := by
  intro rs
  induction rs with
  | nil =>
    intro prev i a b ha _
    simp [mkWeeklyBars] at ha
  | cons r rs ih =>
    intro prev i a b ha hb
    cases i with
    | zero =>
      simp [mkWeeklyBars] at ha hb
      cases rs with
      | nil => simp [mkWeeklyBars] at hb
      | cons r2 rs2 =>
        simp [mkWeeklyBars] at hb
        subst ha
        subst hb
        constructor
        · rw [mkBar_some_change, mkBar_close, mkBar_close]
        · rw [mkBar_some_change_pct, mkBar_close, mkBar_close]
    | succ j =>
      exact ih (some r.close) j a b (by simpa [mkWeeklyBars] using ha)
        (by simpa [mkWeeklyBars] using hb)

/-- The weekly error string is never empty. -/
theorem weeklyErrText_ne_empty (msg : String) : weeklyErrText msg ≠ "" := by
  intro h
  have hlen := congrArg String.length h
  rw [weeklyErrText, String.length_append] at hlen
  have h0 : ("⚠️ Maaf, tidak dapat mengambil data mingguan IHSG dari Yahoo Finance. Error: " : String).length = 0 := by
    have : ("" : String).length = 0 := rfl
    omega
  exact absurd h0 (by decide)

/-! ### Claim theorems -/

/-- C1 (counterexample): the utterance "Jelaskan tren minggu IHSG" contains
the educational marker "jelaskan", yet it is classified
WeeklySeriesRequest, not Educational — the weekly pass runs first and does
not consult the exclusion list, so the exclusion pass does not take
priority over the weekly-series pass. -/
theorem C1_counterexample :
    exclusion_words.any (fun word => strContains (lowerStr "Jelaskan tren minggu IHSG") word) = true ∧
    classify "Jelaskan tren minggu IHSG" = .weeklySeriesRequest ∧
    classify "Jelaskan tren minggu IHSG" ≠ .educational := by decide

/-- C1 (amended): for every utterance containing an educational-question
marker and no weekly-range marker, the classification is Educational even
when a data keyword is present — the exclusion pass takes priority over the
latest-quote pass only. -/
theorem C1_exclusion_priority (prompt : String)
    (hexc : exclusion_words.any (fun word => strContains (lowerStr prompt) word) = true)
    (hweek : is_ihsg_weekly_request prompt = false) :
    classify prompt = .educational := by
  simp [classify, hweek, is_ihsg_data_request, hexc]

/-- C1 witness: "Apa itu IHSG?" carries the educational marker "apa itu"
(and the data keyword "ihsg"), contains no weekly marker, and is classified
Educational. -/
theorem C1_exclusion_priority_witness :
    (exclusion_words.any (fun word => strContains (lowerStr "Apa itu IHSG?") word) = true ∧
      is_ihsg_weekly_request "Apa itu IHSG?" = false ∧
      data_keywords.any (fun word => strContains (lowerStr "Apa itu IHSG?") word) = true) ∧
    classify "Apa itu IHSG?" = .educational :=
  ⟨by decide, C1_exclusion_priority "Apa itu IHSG?" (by decide) (by decide)⟩

/-- C6: every utterance containing a weekly-range marker and no educational
marker is classified WeeklySeriesRequest, regardless of any latest-quote
keyword also present — the weekly pass is evaluated before the latest-quote
pass (in fact the weekly pass wins even without the no-educational-marker
hypothesis). -/
theorem C6_weekly_priority (prompt : String)
    (hweek : is_ihsg_weekly_request prompt = true)
    (_hexc : exclusion_words.any (fun word => strContains (lowerStr prompt) word) = false) :
    classify prompt = .weeklySeriesRequest := by
  simp [classify, hweek]

/-- C6 witness: "pergerakan ihsg seminggu terakhir" contains the weekly
marker "seminggu" and the data keyword "pergerakan ihsg", no educational
marker, and is classified WeeklySeriesRequest. -/
theorem C6_weekly_priority_witness :
    (is_ihsg_weekly_request "pergerakan ihsg seminggu terakhir" = true ∧
      exclusion_words.any
        (fun word => strContains (lowerStr "pergerakan ihsg seminggu terakhir") word) = false ∧
      data_keywords.any
        (fun word => strContains (lowerStr "pergerakan ihsg seminggu terakhir") word) = true) ∧
    classify "pergerakan ihsg seminggu terakhir" = .weeklySeriesRequest :=
  ⟨by decide, C6_weekly_priority "pergerakan ihsg seminggu terakhir" (by decide) (by decide)⟩

/-- C2: for every series of at least 2 bars the weekly statistics satisfy
the spec formulas (period change, percent change, max of highs, min of
lows, mean of closes, trend from the sign of the period change), and on the
concrete series with closes [100, 105, 103, 110, 108, 112, 115] the period
change is 15, the percent change 15, and the trend line the strengthening
one. -/
theorem C2_weekly_statistics :
    (∀ wd : List WeeklyBar, 2 ≤ wd.length → StatsSpec wd) ∧
    (weeklyStats demoSeries).week_change = 15 ∧
    (weeklyStats demoSeries).week_change_pct = 15 ∧
    trendStatus (weeklyStats demoSeries).week_change = "📈 MENGUAT" := by
  refine ⟨?_, by with_unfolding_all rfl, by with_unfolding_all rfl, by with_unfolding_all rfl⟩
  intro wd h2
  have hne : wd ≠ [] := by
    intro h
    rw [h] at h2
    simp at h2
  have hmapH : wd.map WeeklyBar.high ≠ [] := by simp [hne]
  have hmapL : wd.map WeeklyBar.low ≠ [] := by simp [hne]
  refine ⟨rfl, rfl, listMax_mem _ hmapH, le_listMax _, listMin_mem _ hmapL, listMin_le _,
    ?_, ?_, ?_, ?_⟩
  · simp [weeklyStats, List.length_map]
  · intro hpos
    simp [trendStatus, hpos]
  · intro hneg
    simp [trendStatus, lt_asymm hneg, hneg]
  · intro hzero
    simp [trendStatus, hzero]

/-- C2 witness: the concrete 7-bar series has at least 2 bars and satisfies
the statistics specification. -/
theorem C2_weekly_statistics_witness : 2 ≤ demoSeries.length ∧ StatsSpec demoSeries :=
  ⟨by decide, C2_weekly_statistics.1 demoSeries (by decide)⟩

/-- C7: in educational mode with more than 8 prior turns, exactly the last
8 turns are replayed, oldest first, between the system instruction and the
new utterance; assistant turns over 500 characters are truncated to their
first 500 characters plus an ellipsis marker before replay, shorter
assistant turns (and all user turns) are replayed unchanged. -/
theorem C7_context_window (prompt : String) (chat_history : List ChatMsg)
    (hlen : 8 < chat_history.length) :
    recentHistory chat_history = chat_history.drop (chat_history.length - 8) ∧
    (recentHistory chat_history).length = 8 ∧
    get_llm_response_messages prompt chat_history
      = LMsg.system SYSTEM_INSTRUCTION
          :: ((chat_history.drop (chat_history.length - 8)).map historyMsg
              ++ [LMsg.human (full_prompt prompt)]) ∧
    (∀ m : ChatMsg, m.role = .assistant → 500 < m.content.length →
        historyMsg m = .ai (m.content.take 500 ++ "...")) ∧
    (∀ m : ChatMsg, m.role = .assistant → m.content.length ≤ 500 →
        historyMsg m = .ai m.content) ∧
    (∀ m : ChatMsg, m.role = .user → historyMsg m = .human m.content) := by
  have hrh : recentHistory chat_history = chat_history.drop (chat_history.length - 8) := by
    simp [recentHistory, hlen]
  refine ⟨hrh, ?_, ?_, ?_, ?_, ?_⟩
  · rw [hrh, List.length_drop]
    omega
  · rw [get_llm_response_messages, hrh]
  · intro m hrole hlong
    cases m with
    | mk role content =>
      cases hrole
      simp [historyMsg, truncContent, hlong]
  · intro m hrole hshort
    cases m with
    | mk role content =>
      cases hrole
      have hnot : ¬ content.length > 500 := Nat.not_lt.mpr hshort
      simp [historyMsg, truncContent, hnot]
  · intro m hrole
    cases m with
    | mk role content =>
      cases hrole
      rfl

/-- C7 witness: on the concrete 10-turn history, the window is the last 8
turns and has length 8, and the 600-character assistant turn is truncated
to 500 characters plus the ellipsis marker. -/
theorem C7_context_window_witness :
    8 < demoHistory.length ∧
    recentHistory demoHistory = demoHistory.drop (demoHistory.length - 8) ∧
    (recentHistory demoHistory).length = 8 ∧
    historyMsg demoLongMsg = .ai (longAnswer.take 500 ++ "...") := by
  have h := C7_context_window "Apa itu obligasi" demoHistory (by decide)
  exact ⟨by decide, h.1, h.2.1, h.2.2.2.1 demoLongMsg rfl (by decide)⟩

/-- C8: every weekly series built by the fetch keeps the raw closes in
order (oldest to newest, as the provider returns them), gives the first bar
zero change fields, and gives every later bar a change equal to its close
minus the close of the previous bar and a percent change equal to that change
divided by the previous close times 100. -/
theorem C8_series_invariant (hist : List RawBar) (wd : List WeeklyBar)
    (hw : fetch_ihsg_weekly_data hist = some wd) :
    wd.map WeeklyBar.close = (tail7 hist).map RawBar.close ∧
    (∀ b0, wd[0]? = some b0 → b0.change = 0 ∧ b0.change_pct = 0) ∧
    (∀ (i : ℕ) (a b : WeeklyBar), wd[i]? = some a → wd[i + 1]? = some b →
        b.change = b.close - a.close ∧
        b.change_pct = (b.close - a.close) / a.close * 100) := by
  have hwd : wd = mkWeeklyBars none (tail7 hist) := by
    by_cases h : hist = []
    · rw [h] at hw
      simp [fetch_ihsg_weekly_data] at hw
    · rw [fetch_ihsg_weekly_data, if_neg h] at hw
      exact (Option.some_inj.mp hw).symm
  subst hwd
  refine ⟨mkWeeklyBars_map_close _ _, ?_, ?_⟩
  · intro b0 hb0
    cases htl : tail7 hist with
    | nil =>
      rw [htl] at hb0
      simp [mkWeeklyBars] at hb0
    | cons r rs =>
      rw [htl] at hb0
      simp [mkWeeklyBars] at hb0
      rw [← hb0]
      exact ⟨rfl, rfl⟩
  · intro i a b ha hb
    exact mkWeeklyBars_chain _ _ _ _ _ ha hb

/-- C8 witness: on the concrete 7-bar history the fetch returns the series
and the invariant holds of it. -/
theorem C8_series_invariant_witness :
    fetch_ihsg_weekly_data demoRaw7 = some demoSeries ∧
    (demoSeries.map WeeklyBar.close = (tail7 demoRaw7).map RawBar.close ∧
      (∀ b0, demoSeries[0]? = some b0 → b0.change = 0 ∧ b0.change_pct = 0) ∧
      (∀ (i : ℕ) (a b : WeeklyBar),
          demoSeries[i]? = some a → demoSeries[i + 1]? = some b →
          b.change = b.close - a.close ∧
          b.change_pct = (b.close - a.close) / a.close * 100)) :=
  ⟨rfl, C8_series_invariant demoRaw7 demoSeries rfl⟩

/-- C10: the latest fetch returns no quote on a history of fewer than 2
rows, and every quote it does return takes its close from the last row, its
previous close from the second-to-last row, and derives the change fields
from those two values. -/
theorem C10_length_guard (hist : List HistRow) (nowOrd : ℤ) :
    (hist.length < 2 → fetch_ihsg_data hist nowOrd = none) ∧
    (∀ d, fetch_ihsg_data hist nowOrd = some d →
      2 ≤ hist.length ∧
      d.close = (hist.getLastD dfltHistRow).close ∧
      d.prev_close = (hist.dropLast.getLastD dfltHistRow).close ∧
      d.change_points = d.close - d.prev_close ∧
      d.change_percent = d.change_points / d.prev_close * 100) := by
  constructor
  · intro hlt
    rw [fetch_ihsg_data, if_pos hlt]
  · intro d hd
    by_cases hlt : hist.length < 2
    · rw [fetch_ihsg_data, if_pos hlt] at hd
      exact absurd hd (by simp)
    · rw [fetch_ihsg_data, if_neg hlt] at hd
      have hd2 := Option.some_inj.mp hd
      refine ⟨by omega, ?_, ?_, ?_, ?_⟩
      · rw [← hd2]
      · rw [← hd2]
      · rw [← hd2]
      · rw [← hd2]

/-- C10 witness: the one-row history yields no quote; the two-row history
yields the concrete quote, whose fields satisfy the stated equations. -/
theorem C10_length_guard_witness :
    (demoHist1.length < 2 ∧ fetch_ihsg_data demoHist1 0 = none) ∧
    (fetch_ihsg_data demoHist2 101 = some demoQuote ∧
      2 ≤ demoHist2.length ∧
      demoQuote.close = (demoHist2.getLastD dfltHistRow).close ∧
      demoQuote.prev_close = (demoHist2.dropLast.getLastD dfltHistRow).close ∧
      demoQuote.change_points = demoQuote.close - demoQuote.prev_close ∧
      demoQuote.change_percent = demoQuote.change_points / demoQuote.prev_close * 100) := by
  have hfetch : fetch_ihsg_data demoHist2 101 = some demoQuote := by
    with_unfolding_all rfl
  exact ⟨⟨by decide, (C10_length_guard demoHist1 0).1 (by decide)⟩,
    hfetch, (C10_length_guard demoHist2 101).2 demoQuote hfetch⟩

/-- C9 (counterexample): on the two-row history whose previous close is 0,
the fetch still returns a quote — a zero previous close is not treated as a
fetch failure, and no guard precedes the division. -/
theorem C9_counterexample :
    (zeroPrevHist.dropLast.getLastD dfltHistRow).close = 0 ∧
    fetch_ihsg_data zeroPrevHist 101 ≠ none := by
  constructor
  · rfl
  · rw [fetch_ihsg_data, if_neg (by decide)]
    simp

/-- C9 (amended): the latest-quote construction does not maintain the
invariant previousClose ≠ 0: the division computing changePercent is not
guarded, and a fetched history whose previous close is zero still produces
a Quote (with `prev_close = 0`) instead of being treated as a fetch
failure. -/
theorem C9_zero_prev_not_failure (hist : List HistRow) (nowOrd : ℤ)
    (h2 : 2 ≤ hist.length)
    (hz : (hist.dropLast.getLastD dfltHistRow).close = 0) :
    ∃ d, fetch_ihsg_data hist nowOrd = some d ∧ d.prev_close = 0 := by
  rw [fetch_ihsg_data, if_neg (by omega)]
  exact ⟨_, rfl, hz⟩

/-- C9 witness: the concrete zero-previous-close history has 2 rows and
yields a quote with `prev_close = 0`. -/
theorem C9_zero_prev_not_failure_witness :
    (2 ≤ zeroPrevHist.length ∧ (zeroPrevHist.dropLast.getLastD dfltHistRow).close = 0) ∧
    ∃ d, fetch_ihsg_data zeroPrevHist 101 = some d ∧ d.prev_close = 0 :=
  ⟨⟨by decide, rfl⟩, C9_zero_prev_not_failure zeroPrevHist 101 (by decide) rfl⟩

/-- The fixed latest-mode apology is non-empty. -/
theorem latestFixedApology_ne_empty : latestFixedApology ≠ "" := by decide

/-- Behaviour of the latest-mode composer on a fetch failure: exactly one
model call is attempted; its reply is returned verbatim, and the fixed
apology is returned when it raised. -/
theorem latest_failure_behaviour (fL : LatestFetchResult) (llm : Option String)
    (hL : fL.isFailure = true) :
    (get_ihsg_data_and_format fL llm).2 = 1 ∧
    (∀ t, llm = some t → (get_ihsg_data_and_format fL llm).1 = t) ∧
    (llm = none → (get_ihsg_data_and_format fL llm).1 = latestFixedApology) := by
  cases fL <;> cases llm <;> simp_all [get_ihsg_data_and_format, LatestFetchResult.isFailure]

/-- Behaviour of the weekly composer on a fetch failure: no model call is
attempted and a non-empty fixed-form error string is returned. -/
theorem weekly_failure_behaviour (fW : WeeklyFetchResult) (llm : Option String)
    (hW : fW.isFailure = true) :
    (get_ihsg_weekly_data_and_format fW llm).2 = 0 ∧
    ∃ s, (get_ihsg_weekly_data_and_format fW llm).1 = .errorText s ∧ s ≠ "" := by
  cases fW with
  | ok wd => simp [WeeklyFetchResult.isFailure] at hW
  | noData => exact ⟨rfl, _, rfl, weeklyErrText_ne_empty _⟩
  | fetchError m => exact ⟨rfl, _, rfl, weeklyErrText_ne_empty _⟩

/-- C3 (counterexample): on a weekly fetch failure the composer attempts no
model call at all — zero invocations, not the exactly one the claim states
— even when a model reply would have been available. -/
theorem C3_counterexample :
    WeeklyFetchResult.noData.isFailure = true ∧
    (get_ihsg_weekly_data_and_format .noData (some "Mohon maaf, data sedang tidak tersedia")).2 = 0 ∧
    (get_ihsg_weekly_data_and_format .noData (some "Mohon maaf, data sedang tidak tersedia")).2 ≠ 1 := by
  exact ⟨rfl, rfl, by decide⟩

/-- C3 (amended): no data-fetch failure raises past the composition
boundary (the embedded composers are total functions of the failure).  In
Latest mode a fetch failure attempts exactly one model call, returns its
polite reply verbatim, and returns the fixed non-empty apology when that
call also fails.  In Weekly mode a fetch failure attempts no model call and
returns a non-empty fixed-form apology string directly. -/
theorem C3_failure_fallback (fL : LatestFetchResult) (fW : WeeklyFetchResult)
    (llm : Option String) (hL : fL.isFailure = true) (hW : fW.isFailure = true) :
    (get_ihsg_data_and_format fL llm).2 = 1 ∧
    (∀ t, llm = some t → (get_ihsg_data_and_format fL llm).1 = t) ∧
    (llm = none → (get_ihsg_data_and_format fL llm).1 = latestFixedApology) ∧
    latestFixedApology ≠ "" ∧
    (get_ihsg_weekly_data_and_format fW llm).2 = 0 ∧
    (∃ s, (get_ihsg_weekly_data_and_format fW llm).1 = .errorText s ∧ s ≠ "") := by
  obtain ⟨h1, h2, h3⟩ := latest_failure_behaviour fL llm hL
  obtain ⟨h4, h5⟩ := weekly_failure_behaviour fW llm hW
  exact ⟨h1, h2, h3, latestFixedApology_ne_empty, h4, h5⟩

/-- C3 witness: both fetches failing with no data and the model call also
failing: one latest-mode call returning the fixed apology, zero weekly-mode
calls returning the non-empty error string. -/
theorem C3_failure_fallback_witness :
    (LatestFetchResult.noData.isFailure = true ∧
      WeeklyFetchResult.noData.isFailure = true) ∧
    ((get_ihsg_data_and_format .noData none).2 = 1 ∧
      (∀ t, (none : Option String) = some t →
          (get_ihsg_data_and_format .noData none).1 = t) ∧
      ((none : Option String) = none →
          (get_ihsg_data_and_format .noData none).1 = latestFixedApology) ∧
      latestFixedApology ≠ "" ∧
      (get_ihsg_weekly_data_and_format .noData none).2 = 0 ∧
      (∃ s, (get_ihsg_weekly_data_and_format .noData none).1 = .errorText s ∧ s ≠ "")) :=
  ⟨⟨rfl, rfl⟩, C3_failure_fallback .noData .noData none rfl rfl⟩

/-- C4: on a successful weekly fetch whose narration call fails, the
returned text still contains the formatted periodChangePercent (the
deterministic statistics block is always concatenated) and the attached
table of daily bars is present and non-empty. -/
theorem C4_model_failure_preserves_data (wd : List WeeklyBar) (hne : wd ≠ []) :
    ∃ text,
      get_ihsg_weekly_data_and_format (.ok wd) none
        = (.ok text (wd.map displayRow), 1) ∧
      (∃ pre post, text = pre ++ fmtPlus2 (weeklyStats wd).week_change_pct ++ post) ∧
      wd.map displayRow ≠ [] := by
  refine ⟨_, rfl, ⟨weeklyAiFallback ++ "\n\n" ++ stats_before wd,
    stats_after wd ++ "\n\n**📋 Tabel Data Lengkap:**\n", ?_⟩, by simp [hne]⟩
  simp only [stats_text, String.append_assoc]

/-- C4 witness: on the concrete 7-bar series with the narration call
failing, the text contains the formatted percent and the table is the
non-empty formatted series. -/
theorem C4_model_failure_preserves_data_witness :
    demoSeries ≠ [] ∧
    ∃ text,
      get_ihsg_weekly_data_and_format (.ok demoSeries) none
        = (.ok text (demoSeries.map displayRow), 1) ∧
      (∃ pre post, text = pre ++ fmtPlus2 (weeklyStats demoSeries).week_change_pct ++ post) ∧
      demoSeries.map displayRow ≠ [] :=
  ⟨by decide, C4_model_failure_preserves_data demoSeries (by decide)⟩

/-- C5 (counterexample): a one-bar series — fewer than 2 bars — does not
fail: the composer computes the statistics and returns the normal tuple,
with a period change of 0; there is no InsufficientDataError anywhere in
the code. -/
theorem C5_counterexample :
    oneBarSeries.length < 2 ∧
    (get_ihsg_weekly_data_and_format (.ok oneBarSeries) (some "analisis")).1.isErrorText
      = false ∧
    (weeklyStats oneBarSeries).week_change = 0 := by
  refine ⟨by decide, rfl, by with_unfolding_all rfl⟩

/-- C5 (amended): the weekly statistics are computed for every non-empty
fetched series, including a one-bar series, whose period change is 0 (first
and last bar coincide); no InsufficientDataError exists, and only an empty
provider history makes the fetch return no data. -/
theorem C5_no_insufficient_data_error (wd : List WeeklyBar) (llm : Option String)
    (hne : wd ≠ []) :
    (∃ text table, get_ihsg_weekly_data_and_format (.ok wd) llm = (.ok text table, 1)) ∧
    (wd.length = 1 → (weeklyStats wd).week_change = 0) ∧
    (∀ hist : List RawBar, fetch_ihsg_weekly_data hist = none ↔ hist = []) := by
  refine ⟨⟨_, _, rfl⟩, ?_, ?_⟩
  · intro h1
    cases wd with
    | nil => exact absurd h1 (by simp)
    | cons b rest =>
      cases rest with
      | nil => simp [weeklyStats]
      | cons c r2 => simp at h1
  · intro hist
    constructor
    · intro h
      by_contra hne2
      rw [fetch_ihsg_weekly_data, if_neg hne2] at h
      exact Option.noConfusion h
    · intro h
      rw [h, fetch_ihsg_weekly_data, if_pos rfl]

/-- C5 witness: the concrete one-bar series is non-empty, gets a normal
tuple result, and has period change 0. -/
theorem C5_no_insufficient_data_error_witness :
    oneBarSeries ≠ [] ∧
    ((∃ text table,
        get_ihsg_weekly_data_and_format (.ok oneBarSeries) none = (.ok text table, 1)) ∧
      (oneBarSeries.length = 1 → (weeklyStats oneBarSeries).week_change = 0) ∧
      (∀ hist : List RawBar, fetch_ihsg_weekly_data hist = none ↔ hist = [])) :=
  ⟨by decide, C5_no_insufficient_data_error oneBarSeries none (by decide)⟩
